import Mathlib

/-!
Verification of the rendering-state core of rdelfin/ggez
(`src/graphics/mod.rs`) against its natural-language specification.

The Rust source is shallowly embedded: pure functions become Lean
functions, stateful operations become explicit state passing on a
`GraphicsContextM` record, `f32` values that are only ever stored and
compared (never subjected to floating-point rounding) are modelled as
rationals, GPU resource handles as natural-number ids, and fallible code
returns `Except`.  A Rust `panic!` is modelled by the distinguished
`PanicOr.panic` constructor, which is *not* a typed error: it stands for
process termination.

`GraphicsContext`'s own method bodies live in `graphics/context.rs`,
which is not part of the sources under verification; those few helpers
are modelled from the specification text and are marked
`Modelled from the spec:` in their doc comments.  Everything else is a
direct transcription of `src/graphics/mod.rs`.
-/

namespace Ggez

/-- 4x4 matrices. `nalgebra::Matrix4<f32>` is modelled over the rationals:
the code only composes and stores such matrices, and every claim is about
which product is stored where, not about floating-point rounding. -/
abbrev Mat4 := Matrix (Fin 4) (Fin 4) ℚ

/-- `graphics::types::Rect { x, y, w, h }`. -/
structure Rect where
  x : ℚ
  y : ℚ
  w : ℚ
  h : ℚ
deriving DecidableEq

/-- The slice of `GameError` (error.rs) these sources construct:
a typed, recoverable error value carrying a diagnostic string. -/
inductive GameError
  | RenderError (msg : String)
deriving DecidableEq

/-- `glutin::Api`. -/
inductive Api
  | OpenGl
  | OpenGlEs
  | WebGl
deriving DecidableEq

/-- The `Debug` rendering of an `Api` value, as `format!` prints it. -/
def Api.debugStr : Api → String
  | .OpenGl => "OpenGl"
  | .OpenGlEs => "OpenGlEs"
  | .WebGl => "WebGl"

/-- Outcome of Rust code that may `panic!`: `panic` is process
termination, not a typed error a caller could handle. -/
inductive PanicOr (α : Type)
  | panic (msg : String)
  | ok (val : α)
deriving DecidableEq

/-- `GlBackendSpec { major, minor, api }` (mod.rs lines 157-165). -/
structure GlBackendSpec where
  major : Nat
  minor : Nat
  api : Api
deriving DecidableEq

/-- The four static shader source files named by `include_bytes!` in
`GlBackendSpec::shaders`. -/
inductive ShaderFile
  | basic_150_glslv
  | basic_150_glslf
  | basic_es300_glslv
  | basic_es300_glslf
deriving DecidableEq

/-- `GlBackendSpec::shaders` (mod.rs lines 198-210): returns the default
vertex/fragment shader source pair for the spec's API, and executes
`panic!("Unsupported API: {:?}, should never happen", a)` on any other
API variant. -/
def GlBackendSpec.shaders (s : GlBackendSpec) : PanicOr (ShaderFile × ShaderFile) :=
  match s.api with
  | .OpenGl => .ok (.basic_150_glslv, .basic_150_glslf)
  | .OpenGlEs => .ok (.basic_es300_glslv, .basic_es300_glslf)
  | a => .panic ("Unsupported API: " ++ a.debugStr ++ ", should never happen")

/-- `gfx::texture::FilterMethod` (the part used as a sampler key). -/
inductive FilterMethod
  | Scale
  | Mipmap
  | Bilinear
  | Trilinear
deriving DecidableEq

/-- `gfx::texture::WrapMode`. -/
inductive WrapMode
  | Tile
  | Mirror
  | Clamp
  | Border
deriving DecidableEq

/-- `gfx::texture::SamplerInfo`: the filter/wrap descriptor keying the
sampler cache. -/
structure SamplerInfo where
  filter : FilterMethod
  wrap : WrapMode
deriving DecidableEq

/-- `gfx_device_gl::Factory`, reduced to what these sources observe of it:
a supply of fresh sampler and texture ids, plus a fault-injection field
(`texFail`) standing for the device refusing a texture allocation, already
converted to the typed error the `From` impls produce. -/
structure GlFactory where
  nextSampler : Nat
  nextTex : Nat
  texFail : Option GameError
deriving DecidableEq

/-- `Factory::create_sampler`: allocates a fresh GPU sampler resource. -/
def GlFactory.create_sampler (f : GlFactory) (_info : SamplerInfo) : Nat × GlFactory :=
  (f.nextSampler, { f with nextSampler := f.nextSampler + 1 })

/-- `SamplerCache` (mod.rs lines 383-398): a map from `SamplerInfo` to
sampler handles, modelled as an association list (insertion order kept). -/
structure SamplerCache where
  samplers : List (SamplerInfo × Nat)
deriving DecidableEq

/-- `SamplerCache::new`. -/
def SamplerCache.new : SamplerCache := ⟨[]⟩

/-- Lookup of `HashMap::entry`: the handle stored for a descriptor, if any. -/
def findSampler : List (SamplerInfo × Nat) → SamplerInfo → Option Nat
  | [], _ => none
  | (k, v) :: rest, info => if k = info then some v else findSampler rest info

/-- `SamplerCache::get_or_insert` (mod.rs lines 400-410): returns the
cached handle for `info`, or creates a sampler through the factory and
stores it (`entry(info).or_insert_with(...)`), returning a clone of it. -/
def SamplerCache.get_or_insert (c : SamplerCache) (info : SamplerInfo)
    (f : GlFactory) : Nat × SamplerCache × GlFactory :=
  match findSampler c.samplers info with
  | some s => (s, c, f)
  | none =>
    let r := f.create_sampler info
    (r.1, ⟨c.samplers ++ [(info, r.1)]⟩, r.2)

/-- A sequence of `get_or_insert` calls, threaded through cache and factory. -/
def runGetOrInsert : List SamplerInfo → SamplerCache → GlFactory → SamplerCache × GlFactory
  | [], c, f => (c, f)
  | info :: rest, c, f =>
    let r := c.get_or_insert info f
    runGetOrInsert rest r.2.1 r.2.2

/-- `InstanceProperties` (mod.rs lines 314-324): per-object instance
record; `[f32; 4]` fields become rational 4-lists. -/
structure InstanceProperties where
  src : List ℚ
  col1 : List ℚ
  col2 : List ℚ
  col3 : List ℚ
  col4 : List ℚ
  color : List ℚ
deriving DecidableEq

/-- `impl Default for InstanceProperties` (mod.rs lines 350-361),
transcribed value for value. -/
def InstanceProperties.default : InstanceProperties :=
  { src := [0, 0, 1, 1]
    col1 := [1, 0, 0, 0]
    col2 := [0, 1, 0, 0]
    col3 := [1, 0, 1, 0]
    col4 := [1, 0, 0, 1]
    color := [1, 1, 1, 1] }

/-- `gfx::buffer::CreationError`; the `Bind` and `Usage` payloads are kept
as their `Debug` strings, which is all the conversion uses of them. -/
inductive BufferCreationError
  | UnsupportedBind (b : String)
  | UnsupportedUsage (u : String)
  | Other
deriving DecidableEq

/-- `impl From<gfx::buffer::CreationError> for GameError`
(mod.rs lines 413-430). -/
def gameErrorFromBufferCreationError : BufferCreationError → GameError
  | .UnsupportedBind b =>
      .RenderError ("Could not create buffer: Unsupported Bind (" ++ b ++ ")")
  | .UnsupportedUsage u =>
      .RenderError ("Could not create buffer: Unsupported Usage (" ++ u ++ ")")
  | .Other => .RenderError "Could not create buffer: Unknown error"

/-- `gfx::format::SurfaceType` (the variants these sources mention). -/
inductive SurfaceType
  | R8_G8_B8_A8
  | D24_S8
deriving DecidableEq

/-- `gfx::format::ChannelType`. -/
inductive ChannelType
  | Srgb
  | Unorm
deriving DecidableEq

/-- `gfx::format::Format(surface, channel)`. -/
structure Format where
  surface : SurfaceType
  channel : ChannelType
deriving DecidableEq

/-- `gfx::texture::AaMode`. -/
inductive AaMode
  | Single
  | Multi (samples : Nat)
deriving DecidableEq

/-- `gfx::texture::Kind::D2(w, h, aa)`, the only kind `screenshot` builds. -/
inductive TextureKind
  | D2 (w : Nat) (h : Nat) (aa : AaMode)
deriving DecidableEq

/-- `gfx::memory::Bind` flags named in `screenshot`. -/
inductive BindFlag
  | transfer_src
  | transfer_dst
  | shader_resource
deriving DecidableEq

/-- `gfx::memory::Usage`. -/
inductive MemUsage
  | Data
  | Dynamic
  | Upload
  | Download
deriving DecidableEq

/-- `gfx::texture::Info` as `screenshot` fills it in. -/
structure TextureInfo where
  kind : TextureKind
  levels : Nat
  format : SurfaceType
  bind : List BindFlag
  usage : MemUsage
deriving DecidableEq

/-- A raw device texture: its id and the info it was allocated with. -/
structure RawTexture where
  id : Nat
  info : TextureInfo
deriving DecidableEq

/-- `gfx::texture::ImageInfoCommon` as `screenshot` fills it in. -/
structure ImageInfoCommon where
  xoffset : Nat
  yoffset : Nat
  zoffset : Nat
  width : Nat
  height : Nat
  depth : Nat
  format : Format
  mipmap : Nat
deriving DecidableEq

/-- `gfx::handle::RawRenderTargetView`: the texture it views plus the
dimension tuple `get_dimensions` reports. -/
structure RawRenderTargetView where
  tex : Nat
  w : Nat
  h : Nat
  depth : Nat
  aa : AaMode
deriving DecidableEq

/-- `RawRenderTargetView::get_dimensions`. -/
def RawRenderTargetView.get_dimensions (v : RawRenderTargetView) :
    Nat × Nat × Nat × AaMode :=
  (v.w, v.h, v.depth, v.aa)

/-- `RawRenderTargetView::get_texture`. -/
def RawRenderTargetView.get_texture (v : RawRenderTargetView) : Nat := v.tex

/-- The GPU commands these sources enqueue on encoders. -/
inductive GpuCommand
  | copy_texture_to_texture (src : Nat) (dst : Nat) (info : ImageInfoCommon)
deriving DecidableEq

/-- `gfx::Encoder`: a queue of not-yet-submitted GPU commands. -/
structure Encoder where
  queue : List GpuCommand
deriving DecidableEq

/-- `gfx_device_gl::Device`: the commands flushed to it so far, and how
often `cleanup` ran. -/
structure Device where
  executed : List GpuCommand
  cleanups : Nat
deriving DecidableEq

/-- `Encoder::flush(device)`: submits the queued commands to the device
and empties the queue. -/
def Encoder.flush (e : Encoder) (d : Device) : Encoder × Device :=
  (⟨[]⟩, { d with executed := d.executed ++ e.queue })

/-- `Encoder::copy_texture_to_texture_raw` (modelled as always
succeeding: the claims under verification only concern allocation
failures): enqueues the copy. -/
def Encoder.copy_texture_to_texture_raw (e : Encoder) (src : Nat)
    (info : ImageInfoCommon) (dst : Nat) : Encoder :=
  { e with queue := e.queue ++ [.copy_texture_to_texture src dst info] }

/-- `Device::cleanup`. -/
def Device.cleanup (d : Device) : Device := { d with cleanups := d.cleanups + 1 }

/-- `Factory::create_texture_raw`: allocates a fresh device texture
carrying `info`, or surfaces the injected allocation failure as the typed
error the surrounding `?` operator propagates. -/
def GlFactory.create_texture_raw (f : GlFactory) (info : TextureInfo)
    (_channel : Option ChannelType) : Except GameError (RawTexture × GlFactory) :=
  match f.texFail with
  | some e => .error e
  | none => .ok (⟨f.nextTex, info⟩, { f with nextTex := f.nextTex + 1 })

/-- `glutin::GlWindow`, reduced to what `present` observes: a swap
counter and a fault-injection field for `swap_buffers` failing. -/
structure WindowM where
  swapFail : Option String
  swaps : Nat
deriving DecidableEq

/-- `GlWindow::swap_buffers`, with the `From<glutin::ContextError>`
conversion (error.rs, outside these sources) folded in: a failure
surfaces as a typed `RenderError`. -/
def WindowM.swap_buffers (w : WindowM) : Except GameError WindowM :=
  match w.swapFail with
  | some msg => .error (.RenderError ("OpenGL context error: " ++ msg))
  | none => .ok { w with swaps := w.swaps + 1 }

/-- The externally visible steps of the frame lifecycle, in the order the
code performs them. -/
inductive FrameEvent
  | rebind_screen_target
  | flush_encoder
  | swap_buffers
  | cleanup_device
deriving DecidableEq

/-- `GraphicsContext` (graphics/context.rs), reduced to the state the
verified operations read and write.  `globals_mvp` is the CPU-side
`Globals { mvp_matrix }` value; `globals_buffer` is the GPU-visible
content of the uniform block that `update_globals` uploads into. -/
structure GraphicsContextM where
  modelview_stack : List Mat4
  projection : Mat4
  screen_rect : Rect
  globals_mvp : Mat4
  globals_buffer : Mat4
  encoder : Encoder
  device : Device
  data_out : RawRenderTargetView
  screen_render_target : RawRenderTargetView
  factory : GlFactory
  samplers : SamplerCache
  default_sampler_info : SamplerInfo
  color_fmt : Format
  window : WindowM
  debug_id : Nat
  events : List FrameEvent

/-- `GraphicsContext::color_format`. -/
def GraphicsContextM.color_format (c : GraphicsContextM) : Format := c.color_fmt

/-- Modelled from the spec: `GraphicsContext::push_transform`
(graphics/context.rs, not under src/) — "push(matrix?): pushes the given
matrix" (section 4.4); the stack is a Vec whose last element is the top. -/
def GraphicsContextM.push_transform (c : GraphicsContextM) (t : Mat4) :
    GraphicsContextM :=
  { c with modelview_stack := c.modelview_stack ++ [t] }

/-- Modelled from the spec: `GraphicsContext::pop_transform`
(graphics/context.rs, not under src/) as the frozen program behaves —
"popping the last remaining transform-stack entry currently triggers a
fatal assertion" (section 7 defect (b); section 8.7 calls the
error-return behaviour explicitly post-fix).  With more than one entry
the top is popped in place; with only one the process terminates.  The
panic message text is representative, not quoted from the absent file. -/
def GraphicsContextM.pop_transform (c : GraphicsContextM) :
    PanicOr GraphicsContextM :=
  if 1 < c.modelview_stack.length then
    .ok { c with modelview_stack := c.modelview_stack.dropLast }
  else
    .panic "Popped the last transform off the transform stack"

/-- Modelled from the spec: `GraphicsContext::transform`
(graphics/context.rs, not under src/) — reads the current top of the
transform stack; the stack is never empty (section 3 invariants), so the
default for the empty case is never exercised by any theorem below. -/
def GraphicsContextM.transform (c : GraphicsContextM) : Mat4 :=
  c.modelview_stack.getLastD 1

/-- Modelled from the spec: `GraphicsContext::set_transform`
(graphics/context.rs, not under src/) — "set(matrix): replace the current
top" (section 4.4). -/
def GraphicsContextM.set_transform (c : GraphicsContextM) (t : Mat4) :
    GraphicsContextM :=
  { c with modelview_stack := c.modelview_stack.dropLast ++ [t] }

/-- Modelled from the spec: `GraphicsContext::set_projection`
(graphics/context.rs, not under src/) — "set_projection(matrix): direct
manipulation of the raw projection matrix" (section 4.4). -/
def GraphicsContextM.set_projection (c : GraphicsContextM) (p : Mat4) :
    GraphicsContextM :=
  { c with projection := p }

/-- Modelled from the spec: the orthographic projection derived from a
screen rectangle — "maps rect's top-left to one clip-space corner and
bottom-right to the other; a negative height flips the Y-axis direction"
(section 4.4).  Top-left goes to clip (-1, 1), bottom-right to (1, -1). -/
def orthoFromRect (r : Rect) : Mat4 :=
  !![2 / r.w, 0, 0, -(2 * r.x + r.w) / r.w;
     0, -2 / r.h, 0, (2 * r.y + r.h) / r.h;
     0, 0, 1, 0;
     0, 0, 0, 1]

/-- Modelled from the spec: `GraphicsContext::set_projection_rect`
(graphics/context.rs, not under src/) — "derives a new projection matrix"
from the rectangle and remembers the rectangle (section 4.4, section 3
ProjectionState). -/
def GraphicsContextM.set_projection_rect (c : GraphicsContextM) (r : Rect) :
    GraphicsContextM :=
  { c with screen_rect := r, projection := orthoFromRect r }

/-- Modelled from the spec: `GraphicsContext::calculate_transform_matrix`
(graphics/context.rs, not under src/) — "recomputes MVP = projection x
top-of-stack" (section 4.4) into the CPU-side globals value. -/
def GraphicsContextM.calculate_transform_matrix (c : GraphicsContextM) :
    GraphicsContextM :=
  { c with globals_mvp := c.projection * c.transform }

/-- Modelled from the spec: `GraphicsContext::update_globals`
(graphics/context.rs, not under src/) — "uploads it to the uniform block"
(section 4.4): writes the staged MVP into the GPU-visible uniform. -/
def GraphicsContextM.update_globals (c : GraphicsContextM) :
    Except GameError GraphicsContextM :=
  .ok { c with globals_buffer := c.globals_mvp }

/-- `graphics::push_transform` (mod.rs lines 666-677): pushes the given
matrix, or — `expect`ing a non-empty stack — a copy of the current top. -/
def push_transform (context : GraphicsContextM) (transform : Option Mat4) :
    PanicOr GraphicsContextM :=
  match transform with
  | some t => .ok (context.push_transform t)
  | none =>
    match context.modelview_stack.getLast? with
    | some copy => .ok (context.push_transform copy)
    | none => .panic "Matrix stack empty, should never happen"

/-- `graphics::pop_transform` (mod.rs lines 685-688): returns `()` in
Rust and merely delegates to the context's `pop_transform`, so the
caller observes only the mutated context — or the process terminating. -/
def pop_transform (context : GraphicsContextM) : PanicOr GraphicsContextM :=
  context.pop_transform

/-- `graphics::set_transform` (mod.rs lines 711-714). -/
def set_transform (context : GraphicsContextM) (transform : Mat4) :
    GraphicsContextM :=
  context.set_transform transform

/-- `graphics::mul_transform` (mod.rs lines 742-746): premultiplies the
given matrix with the current top. -/
def mul_transform (context : GraphicsContextM) (transform : Mat4) :
    GraphicsContextM :=
  context.set_transform (transform * context.transform)

/-- `graphics::set_projection` (mod.rs lines 622-625). -/
def set_projection (context : GraphicsContextM) (proj : Mat4) :
    GraphicsContextM :=
  context.set_projection proj

/-- `graphics::mul_projection` (mod.rs lines 632-636). -/
def mul_projection (context : GraphicsContextM) (transform : Mat4) :
    GraphicsContextM :=
  context.set_projection (transform * context.projection)

/-- `graphics::origin` (mod.rs lines 753-756). -/
def origin (context : GraphicsContextM) : GraphicsContextM :=
  context.set_transform 1

/-- `graphics::apply_transformations` (mod.rs lines 761-765): the
explicit flush — recalculates the MVP and sends it to the graphics card. -/
def apply_transformations (context : GraphicsContextM) :
    Except GameError GraphicsContextM :=
  context.calculate_transform_matrix.update_globals

/-- `graphics::set_screen_coordinates` (mod.rs lines 609-614): sets the
projection rectangle, then immediately recalculates and uploads the MVP. -/
def set_screen_coordinates (context : GraphicsContextM) (rect : Rect) :
    Except GameError GraphicsContextM :=
  ((context.set_projection_rect rect).calculate_transform_matrix).update_globals

/-- `graphics::present` (mod.rs lines 470-481): rebinds the physical
screen as the active render target, flushes the encoder into the device,
swaps the display buffers (propagating a failure as a typed error), and
runs device cleanup.  Each step also records its `FrameEvent`. -/
def present (ctx : GraphicsContextM) : Except GameError GraphicsContextM :=
  let gfx := { ctx with data_out := ctx.screen_render_target,
                        events := ctx.events ++ [FrameEvent.rebind_screen_target] }
  let fl := gfx.encoder.flush gfx.device
  let gfx := { gfx with encoder := fl.1, device := fl.2,
                        events := gfx.events ++ [FrameEvent.flush_encoder] }
  match gfx.window.swap_buffers with
  | .error e => .error e
  | .ok w =>
    let gfx := { gfx with window := w, events := gfx.events ++ [FrameEvent.swap_buffers] }
    let gfx := { gfx with device := gfx.device.cleanup,
                          events := gfx.events ++ [FrameEvent.cleanup_device] }
    .ok gfx

/-- `graphics::Image` (graphics/image.rs) as `screenshot` constructs it:
an in-memory drawable handle around a device texture — not a file. -/
structure Image where
  texture : Nat
  texture_handle : RawTexture
  sampler_info : SamplerInfo
  blend_mode : Option Nat
  width : Nat
  height : Nat
  debug_id : Nat
deriving DecidableEq

/-- `graphics::screenshot` (mod.rs lines 485-551): reads the dimensions
and format of the currently bound render target, allocates a matching
device texture, copies the target's texture into it through a freshly
created local encoder that is flushed immediately (the context's own
encoder is untouched), and wraps the texture as an `Image` using the
context's current default sampler descriptor.
`view_texture_as_shader_resource_raw` is modelled as viewing the texture
by its id. -/
def screenshot (ctx : GraphicsContextM) : Except GameError (Image × GraphicsContextM) :=
  let debug_id := ctx.debug_id
  let dims := ctx.data_out.get_dimensions
  let w := dims.1
  let h := dims.2.1
  let aa := dims.2.2.2
  let surface_format := ctx.color_format
  let texture_kind := TextureKind.D2 w h aa
  let texture_info : TextureInfo :=
    { kind := texture_kind
      levels := 1
      format := surface_format.surface
      bind := [.transfer_src, .transfer_dst, .shader_resource]
      usage := .Data }
  match ctx.factory.create_texture_raw texture_info (some surface_format.channel) with
  | .error e => .error e
  | .ok (target_texture, factory1) =>
    let image_info : ImageInfoCommon :=
      { xoffset := 0, yoffset := 0, zoffset := 0
        width := w, height := h, depth := 0
        format := surface_format, mipmap := 0 }
    let local_encoder : Encoder := ⟨[]⟩
    let local_encoder := local_encoder.copy_texture_to_texture_raw
        ctx.data_out.get_texture image_info target_texture.id
    let fl := local_encoder.flush ctx.device
    let image : Image :=
      { texture := target_texture.id
        texture_handle := target_texture
        sampler_info := ctx.default_sampler_info
        blend_mode := none
        width := w
        height := h
        debug_id := debug_id }
    .ok (image, { ctx with factory := factory1, device := fl.2 })

/-- A concrete, freshly initialized context used by the witnesses: one
identity entry on the transform stack, identity projection and uniform,
an empty encoder, the screen bound as the render target, and a healthy
factory and window. -/
def sampleCtx : GraphicsContextM :=
  { modelview_stack := [1]
    projection := 1
    screen_rect := ⟨0, 0, 800, 600⟩
    globals_mvp := 1
    globals_buffer := 1
    encoder := ⟨[]⟩
    device := ⟨[], 0⟩
    data_out := ⟨0, 800, 600, 1, .Single⟩
    screen_render_target := ⟨0, 800, 600, 1, .Single⟩
    factory := ⟨0, 1, none⟩
    samplers := ⟨[]⟩
    default_sampler_info := ⟨.Bilinear, .Clamp⟩
    color_fmt := ⟨.R8_G8_B8_A8, .Srgb⟩
    window := ⟨none, 0⟩
    debug_id := 0
    events := [] }

/-- C1: the code contradicts the claim — popping the transform stack
when only one entry remains triggers a fatal assertion (spec section 7
defect (b)) and the src/ wrapper `pop_transform` (mod.rs:685-688)
returns `()`, so no typed error can reach the caller.  This theorem
evaluates the code at the failing input: a freshly initialized context
whose stack holds exactly its one identity entry. -/
theorem pop_transform_sole_entry_panics :
    ∃ msg, pop_transform sampleCtx = PanicOr.panic msg := ⟨_, rfl⟩

/-- C2: the code contradicts the claim — for a backend specification
whose API variant is not OpenGl or OpenGlEs, `GlBackendSpec::shaders`
executes `panic!` and terminates the process instead of returning a typed
error.  This theorem evaluates the code at the failing input
`GlBackendSpec { major: 3, minor: 2, api: Api::WebGl }`. -/
theorem glBackendSpec_shaders_webgl_panics :
    GlBackendSpec.shaders ⟨3, 2, Api.WebGl⟩ =
      PanicOr.panic "Unsupported API: WebGl, should never happen" := rfl

/-- C10 counterexample: the default `InstanceProperties` does not have
identity transform columns — its third and fourth columns are
`[1,0,1,0]` and `[1,0,0,1]`, so the conjunction claimed (identity
columns) is false at the code's own default value. -/
theorem instance_default_columns_not_identity :
    ¬ (InstanceProperties.default.col1 = [1, 0, 0, 0] ∧
       InstanceProperties.default.col2 = [0, 1, 0, 0] ∧
       InstanceProperties.default.col3 = [0, 0, 1, 0] ∧
       InstanceProperties.default.col4 = [0, 0, 0, 1]) := by
  decide

/-- C10 (amended): the default per-object instance record has source
rectangle `[0,0,1,1]` (the full texture), tint color `[1,1,1,1]` (opaque
white), and transform columns `col1 = [1,0,0,0]`, `col2 = [0,1,0,0]`,
`col3 = [1,0,1,0]`, `col4 = [1,0,0,1]` — the latter two differing from
the identity matrix, so the default transform is not a no-op. -/
theorem instance_default_values :
    InstanceProperties.default =
      { src := [0, 0, 1, 1]
        col1 := [1, 0, 0, 0]
        col2 := [0, 1, 0, 0]
        col3 := [1, 0, 1, 0]
        col4 := [1, 0, 0, 1]
        color := [1, 1, 1, 1] } := rfl

/-- C9: `push_transform` with `Some(matrix)` pushes exactly that matrix
(the stack becomes the old stack with the matrix appended, so the new top
is that matrix and the length grows by one); with `None` it pushes a copy
of the current top, so the new top equals the previous top and the length
grows by one. -/
theorem push_transform_pushes (c : GraphicsContextM) (t : Mat4)
    (hne : c.modelview_stack ≠ []) :
    push_transform c (some t) =
      PanicOr.ok { c with modelview_stack := c.modelview_stack ++ [t] } ∧
    (c.modelview_stack ++ [t]).getLast? = some t ∧
    (c.modelview_stack ++ [t]).length = c.modelview_stack.length + 1 ∧
    push_transform c none =
      PanicOr.ok { c with modelview_stack :=
        c.modelview_stack ++ [c.modelview_stack.getLast hne] } ∧
    (c.modelview_stack ++ [c.modelview_stack.getLast hne]).getLast? =
      some (c.modelview_stack.getLast hne) ∧
    (c.modelview_stack ++ [c.modelview_stack.getLast hne]).length =
      c.modelview_stack.length + 1 := by
  refine ⟨rfl, List.getLast?_concat _, by simp, ?_, List.getLast?_concat _, by simp⟩
  unfold push_transform
  rw [List.getLast?_eq_getLast c.modelview_stack hne]
  rfl

/-- Witness for C9 at a concrete context with a singleton stack. -/
theorem push_transform_pushes_witness :
    sampleCtx.modelview_stack ≠ [] ∧
    push_transform sampleCtx (some (2 : Mat4)) =
      PanicOr.ok { sampleCtx with
        modelview_stack := sampleCtx.modelview_stack ++ [(2 : Mat4)] } :=
  ⟨by simp [sampleCtx], (push_transform_pushes sampleCtx 2 (by simp [sampleCtx])).1⟩

/-- C3 counterexample: the claim is false for `set_projection_rect`.  Its
public entry point `set_screen_coordinates` (mod.rs lines 609-614) calls
`calculate_transform_matrix` and `update_globals` itself, so this one
mutation does change the GPU-visible uniform MVP matrix with no
subsequent `apply_transformations` call: at the concrete freshly
initialized context and the rectangle (0, 0, 800, 600) the uniform after
the call differs from the uniform before it. -/
theorem set_screen_coordinates_uploads_immediately :
    ¬ (∀ c₂, set_screen_coordinates sampleCtx ⟨0, 0, 800, 600⟩ = Except.ok c₂ →
        c₂.globals_buffer = sampleCtx.globals_buffer) := by
  intro hclaim
  have h := hclaim _ rfl
  have h00 := Matrix.ext_iff.mpr h 0 0
  simp [GraphicsContextM.update_globals, GraphicsContextM.calculate_transform_matrix,
    GraphicsContextM.set_projection_rect, GraphicsContextM.transform, orthoFromRect,
    sampleCtx, Matrix.mul_apply, Fin.sum_univ_four, Matrix.one_apply] at h00
  norm_num at h00

/-- C3 (amended): for the mutation operations push (with and without an
explicit matrix), pop (on its non-panicking path — on the sole-entry
panic the process terminates and no uniform survives to observe), set,
multiply, set_projection and multiply_projection, the GPU-visible
uniform MVP matrix (`globals_buffer`) is left unchanged by the mutation
itself, and it is
the explicit flush `apply_transformations` that uploads
projection x top-of-stack into it.  The exception forced by the
counterexample is `set_projection_rect`, whose entry point
`set_screen_coordinates` recomputes and uploads the MVP immediately. -/
theorem mutation_ops_defer_mvp_upload (c : GraphicsContextM) (t : Mat4)
    (hne : c.modelview_stack ≠ []) :
    (∀ m : Mat4, (c.push_transform m).globals_buffer = c.globals_buffer) ∧
    push_transform c (some t) = PanicOr.ok (c.push_transform t) ∧
    push_transform c none =
      PanicOr.ok (c.push_transform (c.modelview_stack.getLast hne)) ∧
    (∀ c₂, pop_transform c = PanicOr.ok c₂ →
      c₂.globals_buffer = c.globals_buffer) ∧
    (set_transform c t).globals_buffer = c.globals_buffer ∧
    (mul_transform c t).globals_buffer = c.globals_buffer ∧
    (set_projection c t).globals_buffer = c.globals_buffer ∧
    (mul_projection c t).globals_buffer = c.globals_buffer ∧
    Except.map GraphicsContextM.globals_buffer (apply_transformations c) =
      Except.ok (c.projection * c.modelview_stack.getLast hne) := by
  refine ⟨fun m => rfl, rfl, ?_, ?_, rfl, rfl, rfl, rfl, ?_⟩
  · unfold push_transform
    rw [List.getLast?_eq_getLast c.modelview_stack hne]
  · intro c₂ hpop
    unfold pop_transform GraphicsContextM.pop_transform at hpop
    split at hpop
    · cases hpop
      rfl
    · cases hpop
  · unfold apply_transformations GraphicsContextM.calculate_transform_matrix
      GraphicsContextM.update_globals GraphicsContextM.transform
    rw [List.getLastD_eq_getLast?, List.getLast?_eq_getLast c.modelview_stack hne]
    rfl

/-- Witness for the amended C3 at a concrete context: `set_projection`
leaves the uniform untouched there. -/
theorem mutation_ops_defer_mvp_upload_witness :
    sampleCtx.modelview_stack ≠ [] ∧
    (set_projection sampleCtx (2 : Mat4)).globals_buffer = sampleCtx.globals_buffer :=
  ⟨by simp [sampleCtx],
   (mutation_ops_defer_mvp_upload sampleCtx 2 (by simp [sampleCtx])).2.2.2.2.2.2.1⟩

/-- C7: the explicit flush `apply_transformations` recomputes the MVP as
exactly the matrix product projection x top-of-stack (projection on the
left) and uploads it into the GPU-visible uniform block, so the uniform
equals this product after every flush. -/
theorem apply_transformations_uploads_product (c : GraphicsContextM)
    (hne : c.modelview_stack ≠ []) :
    apply_transformations c =
      Except.ok { c with
        globals_mvp := c.projection * c.modelview_stack.getLast hne
        globals_buffer := c.projection * c.modelview_stack.getLast hne } := by
  unfold apply_transformations GraphicsContextM.calculate_transform_matrix
    GraphicsContextM.update_globals GraphicsContextM.transform
  rw [List.getLastD_eq_getLast?, List.getLast?_eq_getLast c.modelview_stack hne]
  rfl

/-- Witness for C7 at a concrete context. -/
theorem apply_transformations_uploads_product_witness :
    sampleCtx.modelview_stack ≠ [] ∧
    apply_transformations sampleCtx =
      Except.ok { sampleCtx with
        globals_mvp := sampleCtx.projection *
          sampleCtx.modelview_stack.getLast (by simp [sampleCtx])
        globals_buffer := sampleCtx.projection *
          sampleCtx.modelview_stack.getLast (by simp [sampleCtx]) } :=
  ⟨by simp [sampleCtx],
   apply_transformations_uploads_product sampleCtx (by simp [sampleCtx])⟩

theorem findSampler_eq_none (l : List (SamplerInfo × Nat)) (i : SamplerInfo) :
    findSampler l i = none ↔ i ∉ l.map Prod.fst := by
  induction l with
  | nil => simp [findSampler]
  | cons p rest ih =>
    obtain ⟨k, v⟩ := p
    by_cases hk : k = i
    · subst hk
      simp [findSampler]
    · simp [findSampler, hk, ih, Ne.symm hk]

theorem findSampler_append_self (l : List (SamplerInfo × Nat)) (i : SamplerInfo)
    (v : Nat) (h : findSampler l i = none) :
    findSampler (l ++ [(i, v)]) i = some v := by
  induction l with
  | nil => simp [findSampler]
  | cons p rest ih =>
    obtain ⟨k, w⟩ := p
    by_cases hk : k = i
    · simp [findSampler, hk] at h
    · simp only [List.cons_append, findSampler, if_neg hk] at h ⊢
      exact ih h

theorem get_or_insert_found (c : SamplerCache) (i : SamplerInfo) (f : GlFactory) :
    findSampler (c.get_or_insert i f).2.1.samplers i = some (c.get_or_insert i f).1 := by
  cases hfind : findSampler c.samplers i with
  | some s => simp [SamplerCache.get_or_insert, hfind]
  | none =>
    simp [SamplerCache.get_or_insert, hfind, GlFactory.create_sampler,
      findSampler_append_self _ _ _ hfind]

theorem get_or_insert_idem (c : SamplerCache) (i : SamplerInfo) (f : GlFactory) :
    (c.get_or_insert i f).2.1.get_or_insert i (c.get_or_insert i f).2.2 =
      ((c.get_or_insert i f).1, (c.get_or_insert i f).2.1, (c.get_or_insert i f).2.2) := by
  cases hfind : findSampler c.samplers i with
  | some s => simp [SamplerCache.get_or_insert, hfind]
  | none =>
    have h2 : findSampler (c.samplers ++ [(i, f.nextSampler)]) i = some f.nextSampler :=
      findSampler_append_self _ _ _ hfind
    simp [SamplerCache.get_or_insert, hfind, GlFactory.create_sampler, h2]

theorem runGetOrInsert_keys (reqs : List SamplerInfo) (c : SamplerCache) (f : GlFactory) :
    ((runGetOrInsert reqs c f).1.samplers.map Prod.fst).toFinset =
      (c.samplers.map Prod.fst).toFinset ∪ reqs.toFinset := by
  induction reqs generalizing c f with
  | nil => simp [runGetOrInsert]
  | cons i rest ih =>
    simp only [runGetOrInsert]
    rw [ih]
    cases hfind : findSampler c.samplers i with
    | some s =>
      have hmem : i ∈ c.samplers.map Prod.fst := by
        by_contra hmem
        rw [(findSampler_eq_none _ _).2 hmem] at hfind
        exact Option.noConfusion hfind
      rw [List.toFinset_cons, Finset.union_insert, Finset.insert_eq_self.mpr]
      · simp [SamplerCache.get_or_insert, hfind]
      · exact Finset.mem_union_left _ (List.mem_toFinset.mpr hmem)
    | none =>
      simp [SamplerCache.get_or_insert, hfind, GlFactory.create_sampler, List.map_append,
        List.toFinset_append, Finset.insert_eq, Finset.union_assoc]

theorem runGetOrInsert_nodup (reqs : List SamplerInfo) (c : SamplerCache) (f : GlFactory)
    (h : (c.samplers.map Prod.fst).Nodup) :
    ((runGetOrInsert reqs c f).1.samplers.map Prod.fst).Nodup := by
  induction reqs generalizing c f with
  | nil => simpa [runGetOrInsert] using h
  | cons i rest ih =>
    simp only [runGetOrInsert]
    refine ih _ _ ?_
    cases hfind : findSampler c.samplers i with
    | some s => simpa [SamplerCache.get_or_insert, hfind] using h
    | none =>
      have hmem : i ∉ c.samplers.map Prod.fst := (findSampler_eq_none _ _).1 hfind
      simp [SamplerCache.get_or_insert, hfind, GlFactory.create_sampler, List.map_append,
        List.nodup_append, h, hmem]

/-- C4: `get_or_insert` is idempotent — a second call with the same
descriptor returns the same handle and leaves cache and factory untouched
(no second allocation); two distinct descriptors requested from a fresh
cache yield distinct handles and two factory allocations; and after any
sequence of requests from a fresh cache the cache size equals the number
of distinct descriptors requested. -/
theorem sampler_cache_get_or_insert_spec (c : SamplerCache) (i d1 d2 : SamplerInfo)
    (f g : GlFactory) (hd : d1 ≠ d2) :
    (c.get_or_insert i f).2.1.get_or_insert i (c.get_or_insert i f).2.2 =
      ((c.get_or_insert i f).1, (c.get_or_insert i f).2.1, (c.get_or_insert i f).2.2) ∧
    ((SamplerCache.new.get_or_insert d1 g).2.1.get_or_insert d2
        (SamplerCache.new.get_or_insert d1 g).2.2).1 ≠
      (SamplerCache.new.get_or_insert d1 g).1 ∧
    ((SamplerCache.new.get_or_insert d1 g).2.1.get_or_insert d2
        (SamplerCache.new.get_or_insert d1 g).2.2).2.2.nextSampler =
      g.nextSampler + 2 ∧
    (∀ (reqs : List SamplerInfo) (h : GlFactory),
      (runGetOrInsert reqs SamplerCache.new h).1.samplers.length = reqs.toFinset.card) := by
  refine ⟨get_or_insert_idem c i f, ?_, ?_, ?_⟩
  · simp [SamplerCache.new, SamplerCache.get_or_insert, findSampler,
      GlFactory.create_sampler, hd]
  · simp [SamplerCache.new, SamplerCache.get_or_insert, findSampler,
      GlFactory.create_sampler, hd]
  · intro reqs h
    have hkeys := runGetOrInsert_keys reqs SamplerCache.new h
    have hnodup := runGetOrInsert_nodup reqs SamplerCache.new h (by simp [SamplerCache.new])
    calc (runGetOrInsert reqs SamplerCache.new h).1.samplers.length
        = ((runGetOrInsert reqs SamplerCache.new h).1.samplers.map Prod.fst).length := by
          rw [List.length_map]
      _ = ((runGetOrInsert reqs SamplerCache.new h).1.samplers.map Prod.fst).toFinset.card :=
          (List.toFinset_card_of_nodup hnodup).symm
      _ = reqs.toFinset.card := by
          rw [hkeys]
          simp [SamplerCache.new]

/-- Witness for C4: two distinct concrete descriptors (bilinear/clamp and
scale/clamp), and a three-request sequence repeating the first descriptor
leaves exactly two cache entries. -/
theorem sampler_cache_get_or_insert_spec_witness :
    (⟨FilterMethod.Bilinear, WrapMode.Clamp⟩ : SamplerInfo) ≠
      ⟨FilterMethod.Scale, WrapMode.Clamp⟩ ∧
    (runGetOrInsert
        [⟨FilterMethod.Bilinear, WrapMode.Clamp⟩, ⟨FilterMethod.Scale, WrapMode.Clamp⟩,
         ⟨FilterMethod.Bilinear, WrapMode.Clamp⟩]
        SamplerCache.new ⟨0, 0, none⟩).1.samplers.length =
      ([⟨FilterMethod.Bilinear, WrapMode.Clamp⟩, ⟨FilterMethod.Scale, WrapMode.Clamp⟩,
        ⟨FilterMethod.Bilinear, WrapMode.Clamp⟩] : List SamplerInfo).toFinset.card :=
  ⟨by decide,
   (sampler_cache_get_or_insert_spec SamplerCache.new
      ⟨FilterMethod.Bilinear, WrapMode.Clamp⟩ ⟨FilterMethod.Bilinear, WrapMode.Clamp⟩
      ⟨FilterMethod.Scale, WrapMode.Clamp⟩ ⟨0, 0, none⟩ ⟨0, 0, none⟩ (by decide)).2.2.2
      [⟨FilterMethod.Bilinear, WrapMode.Clamp⟩, ⟨FilterMethod.Scale, WrapMode.Clamp⟩,
       ⟨FilterMethod.Bilinear, WrapMode.Clamp⟩] ⟨0, 0, none⟩⟩

/-- C5: when the allocation succeeds, `screenshot` reads the currently
active render target (whatever `data_out` is bound to, screen or canvas),
allocates a brand-new device texture whose kind (width, height,
anti-aliasing) and format equal the active target's, performs the
texture-to-texture copy through a fresh disposable encoder whose single
command is flushed to the device immediately (the context's own encoder
queue is untouched), and returns an in-memory drawable `Image` over that
texture whose width, height and sampler descriptor are the target's
dimensions and the context's current default sampler. -/
theorem screenshot_spec (c : GraphicsContextM)
    (halloc : c.factory.texFail = none)
    (hwf : c.data_out.tex < c.factory.nextTex) :
    ∃ img c₂,
      screenshot c = Except.ok (img, c₂) ∧
      img.width = c.data_out.w ∧
      img.height = c.data_out.h ∧
      img.texture_handle.info.kind =
        TextureKind.D2 c.data_out.w c.data_out.h c.data_out.aa ∧
      img.texture_handle.info.format = c.color_fmt.surface ∧
      img.texture_handle.id = c.factory.nextTex ∧
      img.texture_handle.id ≠ c.data_out.tex ∧
      img.sampler_info = c.default_sampler_info ∧
      c₂.device.executed = c.device.executed ++
        [GpuCommand.copy_texture_to_texture c.data_out.tex c.factory.nextTex
          { xoffset := 0, yoffset := 0, zoffset := 0, width := c.data_out.w
            height := c.data_out.h, depth := 0, format := c.color_fmt, mipmap := 0 }] ∧
      c₂.encoder = c.encoder ∧
      c₂.factory.nextTex = c.factory.nextTex + 1 := by
  unfold screenshot GlFactory.create_texture_raw
  rw [halloc]
  exact ⟨_, _, rfl, rfl, rfl, rfl, rfl, rfl, (Nat.ne_of_lt hwf).symm, rfl, rfl, rfl, rfl⟩

/-- Witness for C5 at a concrete freshly initialized context. -/
theorem screenshot_spec_witness :
    sampleCtx.factory.texFail = none ∧
    sampleCtx.data_out.tex < sampleCtx.factory.nextTex ∧
    (∃ img c₂,
      screenshot sampleCtx = Except.ok (img, c₂) ∧
      img.width = sampleCtx.data_out.w ∧
      img.height = sampleCtx.data_out.h ∧
      img.texture_handle.info.kind =
        TextureKind.D2 sampleCtx.data_out.w sampleCtx.data_out.h sampleCtx.data_out.aa ∧
      img.texture_handle.info.format = sampleCtx.color_fmt.surface ∧
      img.texture_handle.id = sampleCtx.factory.nextTex ∧
      img.texture_handle.id ≠ sampleCtx.data_out.tex ∧
      img.sampler_info = sampleCtx.default_sampler_info ∧
      c₂.device.executed = sampleCtx.device.executed ++
        [GpuCommand.copy_texture_to_texture sampleCtx.data_out.tex sampleCtx.factory.nextTex
          { xoffset := 0, yoffset := 0, zoffset := 0, width := sampleCtx.data_out.w
            height := sampleCtx.data_out.h, depth := 0, format := sampleCtx.color_fmt,
            mipmap := 0 }] ∧
      c₂.encoder = sampleCtx.encoder ∧
      c₂.factory.nextTex = sampleCtx.factory.nextTex + 1) :=
  ⟨rfl, by decide, screenshot_spec sampleCtx rfl (by decide)⟩

/-- C6: on success `present` returns Ok and has, in order, rebound the
physical screen as the active render target (any canvas redirection is
undone: the active target equals the screen render target afterwards),
flushed every queued command through the context's encoder into the
device, swapped the display buffers, and run device cleanup — as the
recorded frame events show. -/
theorem present_spec (c : GraphicsContextM) (hswap : c.window.swapFail = none) :
    ∃ c₂, present c = Except.ok c₂ ∧
      c₂.data_out = c.screen_render_target ∧
      c₂.encoder.queue = [] ∧
      c₂.device.executed = c.device.executed ++ c.encoder.queue ∧
      c₂.window.swaps = c.window.swaps + 1 ∧
      c₂.device.cleanups = c.device.cleanups + 1 ∧
      c₂.events = c.events ++ [FrameEvent.rebind_screen_target, FrameEvent.flush_encoder,
        FrameEvent.swap_buffers, FrameEvent.cleanup_device] := by
  simp only [present, WindowM.swap_buffers, Encoder.flush, Device.cleanup, hswap]
  exact ⟨_, rfl, rfl, rfl, rfl, rfl, rfl, by simp⟩

/-- Witness for C6 at a concrete context with a healthy window. -/
theorem present_spec_witness :
    sampleCtx.window.swapFail = none ∧
    (∃ c₂, present sampleCtx = Except.ok c₂ ∧
      c₂.data_out = sampleCtx.screen_render_target ∧
      c₂.encoder.queue = [] ∧
      c₂.device.executed = sampleCtx.device.executed ++ sampleCtx.encoder.queue ∧
      c₂.window.swaps = sampleCtx.window.swaps + 1 ∧
      c₂.device.cleanups = sampleCtx.device.cleanups + 1 ∧
      c₂.events = sampleCtx.events ++ [FrameEvent.rebind_screen_target,
        FrameEvent.flush_encoder, FrameEvent.swap_buffers, FrameEvent.cleanup_device]) :=
  ⟨rfl, present_spec sampleCtx rfl⟩

/-- C8: every buffer-creation failure case converts to a typed
`RenderError` carrying the descriptive message the code formats
(unsupported bind, unsupported usage, unknown device error), and a
texture allocation failure during `screenshot` surfaces to the caller as
that typed error result instead of aborting. -/
theorem allocation_failures_surface (b u : String) (c : GraphicsContextM)
    (e : GameError) (hfail : c.factory.texFail = some e) :
    (∀ err : BufferCreationError, ∃ msg : String,
        gameErrorFromBufferCreationError err = GameError.RenderError msg) ∧
    gameErrorFromBufferCreationError (BufferCreationError.UnsupportedBind b) =
      GameError.RenderError ("Could not create buffer: Unsupported Bind (" ++ b ++ ")") ∧
    gameErrorFromBufferCreationError (BufferCreationError.UnsupportedUsage u) =
      GameError.RenderError ("Could not create buffer: Unsupported Usage (" ++ u ++ ")") ∧
    gameErrorFromBufferCreationError BufferCreationError.Other =
      GameError.RenderError "Could not create buffer: Unknown error" ∧
    screenshot c = Except.error e := by
  refine ⟨?_, rfl, rfl, rfl, ?_⟩
  · intro err
    cases err <;> exact ⟨_, rfl⟩
  · simp only [screenshot, GlFactory.create_texture_raw, hfail]

/-- A context whose factory refuses the next texture allocation with a
typed device error. -/
def failCtx : GraphicsContextM :=
  { sampleCtx with factory := ⟨0, 1, some (GameError.RenderError "out of memory")⟩ }

/-- Witness for C8 at the allocation-refusing context. -/
theorem allocation_failures_surface_witness :
    failCtx.factory.texFail = some (GameError.RenderError "out of memory") ∧
    screenshot failCtx = Except.error (GameError.RenderError "out of memory") :=
  ⟨rfl, (allocation_failures_surface "TRANSFER_SRC" "Data" failCtx
      (GameError.RenderError "out of memory") rfl).2.2.2.2⟩

end Ggez
